import Mathlib

/-!
# Shallow embedding of three source files of the repository

* `pkg/fqdn/dnsproxy/helpers.go`            : `lookupTargetDNSServer`
* `pkg/datapath/linux/datapath.go`          : `NewDatapath` and the methods of `linuxDatapath`
* `pkg/cilium-cli/connectivity/builder/to_fqdns.go` : the expectation function of `to-fqdns`

Go values are modelled by value.  A call that does not return normally (a
run-time panic, or a method that never returns) is the `error` side of
`Except GoPanic`; a Go `error` result is an `Option string` holding the message
(`none` is the nil error).
-/

set_option linter.unusedVariables false

namespace Cilium

/-! ## Go run-time and standard-library pieces used by `helpers.go` -/

/-- The Go type `string`. -/
abbrev string : Type := String

/-- The ways in which a call made by `helpers.go` ends without returning
normally: a run-time panic, or, for code outside `helpers.go` (a method of the
writer or of an address type), any other panic or no return at all. -/
inductive GoPanic where
  /-- field access through a nil pointer -/
  | nilPointerDereference
  /-- method call on a nil interface value -/
  | nilInterfaceMethodCall
  /-- any other panic, raised by code outside `helpers.go`, with its value
  printed -/
  | raised (value : string)
  /-- the called method never returns (it blocks, loops, or ends the goroutine
  or the process) -/
  | doesNotReturn
deriving DecidableEq, Repr

deriving instance DecidableEq for Except

/-- Field access `p.f` through a Go pointer: a nil pointer panics. -/
def deref {α : Type} (p : Option α) : Except GoPanic α :=
  match p with
  | none => .error .nilPointerDereference
  | some v => .ok v

namespace net

/-- Go `net.IP`, a byte slice; `none` is the nil slice. -/
abbrev IP := Option (List (Fin 256))

/-- Go `len(ip)` of a `net.IP`. -/
def IP.len (ip : IP) : Nat :=
  match ip with
  | none => 0
  | some bs => bs.length

/-- The struct `net.UDPAddr`; `Port` is a Go `int`. -/
structure UDPAddr where
  IP : net.IP
  Port : Int
  Zone : string
deriving DecidableEq, Repr

/-- The struct `net.TCPAddr`; `Port` is a Go `int`. -/
structure TCPAddr where
  IP : net.IP
  Port : Int
  Zone : string
deriving DecidableEq, Repr

/-- Go `net.ipEmptyString`: the empty string for an IP of length 0, otherwise
`ip.String()`.  `ipString` is `net.IP.String` of the standard library, taken as
a parameter. -/
def ipEmptyString (ipString : net.IP → string) (ip : IP) : string :=
  if ip.len = 0 then "" else ipString ip

/-- Go `net.JoinHostPort`: the host is bracketed when it contains a colon. -/
def JoinHostPort (host port : string) : string :=
  if host.data.contains ':' then "[" ++ host ++ "]:" ++ port
  else host ++ ":" ++ port

/-- Go `itoa.Itoa` on an `int`: decimal digits, with a leading minus sign for a
negative value. -/
def Itoa (v : Int) : string := toString v

/-- The common body of `(*net.UDPAddr).String` and `(*net.TCPAddr).String` on a
non-nil receiver (the two standard-library methods have the same body). -/
def hostPortZoneString (ipString : net.IP → string) (ip : IP) (port : Int) (zone : string) :
    string :=
  if zone ≠ "" then JoinHostPort (ipEmptyString ipString ip ++ "%" ++ zone) (Itoa port)
  else JoinHostPort (ipEmptyString ipString ip) (Itoa port)

/-- Method `(*net.UDPAddr).String`; a nil receiver gives `"<nil>"`. -/
def UDPAddr.String (ipString : net.IP → string) (a : Option UDPAddr) : string :=
  match a with
  | none => "<nil>"
  | some a => hostPortZoneString ipString a.IP a.Port a.Zone

/-- Method `(*net.TCPAddr).String`; a nil receiver gives `"<nil>"`. -/
def TCPAddr.String (ipString : net.IP → string) (a : Option TCPAddr) : string :=
  match a with
  | none => "<nil>"
  | some a => hostPortZoneString ipString a.IP a.Port a.Zone

/-- A non-nil `net.Addr` whose concrete type is neither `*net.UDPAddr` nor
`*net.TCPAddr` (for instance `*net.UnixAddr`, `*net.IPAddr`, or a type of
another package), seen through what the code observes of it: the name `%T`
prints, the outcome of its `String()` method, which is code of the concrete
type and may panic or not return, and the text `%+v` prints for it (package
`fmt` recovers a panic of the methods it calls, so this is a string). -/
structure OtherAddr where
  typeName : string
  str : Except GoPanic string
  plusV : string
deriving DecidableEq

/-- A value of the interface type `net.Addr`, by concrete type.  `nil` is the
nil interface; `udp none` and `tcp none` are nil pointers of the two pointer
types stored in a non-nil interface. -/
inductive Addr where
  | nil
  | udp (p : Option UDPAddr)
  | tcp (p : Option TCPAddr)
  | other (o : OtherAddr)
deriving DecidableEq

/-- Interface method call `addr.String()` on a `net.Addr`: on the nil interface
it panics, otherwise it runs the method of the concrete type, which returns
for the two standard pointer types (also on a nil receiver) and may panic for
another type. -/
def Addr.String (ipString : net.IP → string) (a : Addr) : Except GoPanic string :=
  match a with
  | .nil => .error .nilInterfaceMethodCall
  | .udp p => .ok (UDPAddr.String ipString p)
  | .tcp p => .ok (TCPAddr.String ipString p)
  | .other o => o.str

/-- What the verb `%T` of package `fmt` prints for a `net.Addr`. -/
def Addr.fmtT (a : Addr) : string :=
  match a with
  | .nil => "<nil>"
  | .udp _ => "*net.UDPAddr"
  | .tcp _ => "*net.TCPAddr"
  | .other o => o.typeName

/-- What the verb `%+v` of package `fmt` prints for a `net.Addr` (the two
standard pointer types are printed through their `String` method). -/
def Addr.fmtPlusV (ipString : net.IP → string) (a : Addr) : string :=
  match a with
  | .nil => "<nil>"
  | .udp p => UDPAddr.String ipString p
  | .tcp p => TCPAddr.String ipString p
  | .other o => o.plusV

/-- The type test of the `case *net.UDPAddr` arm of a type switch (a nil pointer
of that type passes it, the nil interface does not). -/
def Addr.isUDPAddr (a : Addr) : Bool :=
  match a with
  | .udp _ => true
  | _ => false

/-- The type test of the `case *net.TCPAddr` arm of a type switch. -/
def Addr.isTCPAddr (a : Addr) : Bool :=
  match a with
  | .tcp _ => true
  | _ => false

end net

/-! ## `pkg/fqdn/dnsproxy/helpers.go` -/

/-- What `helpers.go` uses without declaring it: the bit width of the unsigned
integer type `restore.PortProto` (declared in `pkg/fqdn/restore`), and
`net.IP.String` of the Go standard library. -/
structure Env where
  portProtoBits : Nat
  ipString : net.IP → string

/-- The conversion `restore.PortProto(v)` of a Go `int` to the unsigned type
`restore.PortProto`: the value modulo `2 ^ portProtoBits`. -/
def PortProto (env : Env) (v : Int) : Nat := (v % 2 ^ env.portProtoBits).toNat

/-- A value of the interface type `dns.ResponseWriter`, seen through the
outcome of the call `w.LocalAddr()`, which is code of the concrete writer: it
returns an address, or panics or does not return (on a nil writer the call
itself panics), and through its remote address. -/
structure ResponseWriter where
  LocalAddr : Except GoPanic net.Addr
  RemoteAddr : net.Addr
deriving DecidableEq

/-- The four results of `lookupTargetDNSServer`. -/
structure Target where
  serverIP : net.IP
  serverPort : Nat
  addrStr : string
  err : Option string
deriving DecidableEq, Repr

/-- The error built by
`fmt.Errorf("Cannot extract address information for type %T: %+v", addr, addr)`. -/
def cannotExtract (env : Env) (addr : net.Addr) : string :=
  "Cannot extract address information for type " ++ addr.fmtT ++ ": " ++
    addr.fmtPlusV env.ipString

/-- The function `lookupTargetDNSServer` of `helpers.go`: a type switch on
`w.LocalAddr()`. -/
def lookupTargetDNSServer (env : Env) (w : ResponseWriter) : Except GoPanic Target := do
  let localAddr ← w.LocalAddr
  match localAddr with
  | .udp p => do
      let addr ← deref p
      pure ⟨addr.IP, PortProto env addr.Port, net.UDPAddr.String env.ipString p, none⟩
  | .tcp p => do
      let addr ← deref p
      pure ⟨addr.IP, PortProto env addr.Port, net.TCPAddr.String env.ipString p, none⟩
  | addr => do
      let s ← addr.String env.ipString
      pure ⟨none, 0, s, some (cannotExtract env addr)⟩

/-- The call chain `w.LocalAddr().String()`. -/
def ResponseWriter.localAddrString (env : Env) (w : ResponseWriter) : Except GoPanic string := do
  let localAddr ← w.LocalAddr
  localAddr.String env.ipString

/-! ## `pkg/datapath/linux/datapath.go` -/

/-- A Go interface value or pointer that refers to an object defined outside
`datapath.go` (a collaborator); `none` is nil. -/
abbrev Ref := Option Nat

/-- The struct `DatapathConfiguration`. -/
structure DatapathConfiguration where
  HostDevice : string
  TunnelDevice : string
deriving DecidableEq, Repr

/-- The struct `linuxDatapath`.  The two embedded interfaces are fields named
after their types; `config` is held by value. -/
structure linuxDatapath where
  ConfigWriter : Ref
  IptablesManager : Ref
  node : Ref
  nodeAddressing : Ref
  config : DatapathConfiguration
  loader : Ref
  wgAgent : Ref
  lbmap : Ref
  bwmgr : Ref
deriving DecidableEq, Repr

/-- The struct `DatapathParams` (the embedded marker `cell.In` has no data). -/
structure DatapathParams where
  Lifecycle : Ref
  ConfigWriter : Ref
  RuleManager : Ref
  WGAgent : Ref
  NodeMap : Ref
  BWManager : Ref
  NodeAddressing : Ref
  MTU : Ref
  Loader : Ref
  DB : Ref
  Devices : Ref
deriving DecidableEq, Repr

/-- The one kind of `hive.Hook` that `datapath.go` builds: its `OnStart` is the
closure `dp.NodeIDs().RestoreNodeIDs(); return nil`, its `OnStop` is unset. -/
inductive Hook where
  | restoreNodeIDsOnStart
deriving DecidableEq, Repr

/-- The code that `datapath.go` calls and does not define, as functions on the
state `E` of the collaborators: `lbmap.New()`, `NewNodeHandler(...)` (both
return a fresh reference), `RestoreNodeIDs()` of the node handler and
`DeleteEndpointBandwidthLimit(epID)` of the bandwidth manager.  Each call is
taken to return. -/
structure Collaborators (E : Type) where
  lbmapNew : E → Ref × E
  NewNodeHandler : DatapathConfiguration → Ref → Ref → Ref → Ref → Ref → E → Ref × E
  RestoreNodeIDs : Ref → E → E
  DeleteEndpointBandwidthLimit : Ref → Nat → E → Option string × E

/-- The program state that `datapath.go` acts on: the `linuxDatapath` object
behind the pointer `dp`, the hooks appended to `p.Lifecycle`, and the state of
the collaborators. -/
structure World (E : Type) where
  dp : linuxDatapath
  hooks : List Hook
  ext : E

/-- The function `NewDatapath`: the composite literal (its `node` field is left
nil), the assignment to `dp.node`, and the hook appended to the lifecycle.
`cfg` is passed to `NewNodeHandler` by value. -/
def NewDatapath {E : Type} (C : Collaborators E) (p : DatapathParams)
    (cfg : DatapathConfiguration) (ext : E) : World E :=
  let (lb, ext) := C.lbmapNew ext
  let dp : linuxDatapath :=
    { ConfigWriter := p.ConfigWriter
      IptablesManager := p.RuleManager
      node := none
      nodeAddressing := p.NodeAddressing
      config := cfg
      wgAgent := p.WGAgent
      loader := p.Loader
      lbmap := lb
      bwmgr := p.BWManager }
  let (n, ext) := C.NewNodeHandler cfg dp.nodeAddressing p.NodeMap p.MTU p.DB p.Devices ext
  let dp := { dp with node := n }
  { dp := dp, hooks := [Hook.restoreNodeIDsOnStart], ext := ext }

/-! The methods of `linuxDatapath`, in state-passing style: each takes the
object behind the receiver `l` and returns its result together with the object
as the method leaves it. -/

/-- Method `Name`. -/
def linuxDatapath.Name (l : linuxDatapath) : string × linuxDatapath :=
  ("linux-datapath", l)

/-- Method `Node`. -/
def linuxDatapath.Node (l : linuxDatapath) : Ref × linuxDatapath :=
  (l.node, l)

/-- Method `NodeIDs`. -/
def linuxDatapath.NodeIDs (l : linuxDatapath) : Ref × linuxDatapath :=
  (l.node, l)

/-- Method `NodeNeighbors`. -/
def linuxDatapath.NodeNeighbors (l : linuxDatapath) : Ref × linuxDatapath :=
  (l.node, l)

/-- Method `LocalNodeAddressing`. -/
def linuxDatapath.LocalNodeAddressing (l : linuxDatapath) : Ref × linuxDatapath :=
  (l.nodeAddressing, l)

/-- Method `Loader`. -/
def linuxDatapath.Loader (l : linuxDatapath) : Ref × linuxDatapath :=
  (l.loader, l)

/-- Method `WireguardAgent`. -/
def linuxDatapath.WireguardAgent (l : linuxDatapath) : Ref × linuxDatapath :=
  (l.wgAgent, l)

/-- Method `LBMap`. -/
def linuxDatapath.LBMap (l : linuxDatapath) : Ref × linuxDatapath :=
  (l.lbmap, l)

/-- Method `BandwidthManager`. -/
def linuxDatapath.BandwidthManager (l : linuxDatapath) : Ref × linuxDatapath :=
  (l.bwmgr, l)

/-- Method `DeleteEndpointBandwidthLimit`: the call is passed on to the
bandwidth manager, which acts on the collaborators' state. -/
def linuxDatapath.DeleteEndpointBandwidthLimit {E : Type} (C : Collaborators E)
    (l : linuxDatapath) (epID : Nat) (ext : E) : Option string × linuxDatapath × E :=
  let (err, ext) := C.DeleteEndpointBandwidthLimit l.bwmgr epID ext
  (err, l, ext)

/-- The `OnStart` closure of the hook built by `NewDatapath`, run on the object
behind the captured pointer `dp`. -/
def Hook.OnStart {E : Type} (C : Collaborators E) (h : Hook) (w : World E) :
    Option string × World E :=
  match h with
  | .restoreNodeIDsOnStart =>
      let (ids, dp) := w.dp.NodeIDs
      (none, { w with dp := dp, ext := C.RestoreNodeIDs ids w.ext })

/-- A call of one method of `linuxDatapath`, with its arguments. -/
inductive Call where
  | Name
  | Node
  | NodeIDs
  | NodeNeighbors
  | LocalNodeAddressing
  | Loader
  | WireguardAgent
  | LBMap
  | BandwidthManager
  | DeleteEndpointBandwidthLimit (epID : Nat)
deriving DecidableEq, Repr

/-- The world after one method call on the datapath object (the returned value
is dropped). -/
def Call.run {E : Type} (C : Collaborators E) (c : Call) (w : World E) : World E :=
  match c with
  | .Name => { w with dp := w.dp.Name.2 }
  | .Node => { w with dp := w.dp.Node.2 }
  | .NodeIDs => { w with dp := w.dp.NodeIDs.2 }
  | .NodeNeighbors => { w with dp := w.dp.NodeNeighbors.2 }
  | .LocalNodeAddressing => { w with dp := w.dp.LocalNodeAddressing.2 }
  | .Loader => { w with dp := w.dp.Loader.2 }
  | .WireguardAgent => { w with dp := w.dp.WireguardAgent.2 }
  | .LBMap => { w with dp := w.dp.LBMap.2 }
  | .BandwidthManager => { w with dp := w.dp.BandwidthManager.2 }
  | .DeleteEndpointBandwidthLimit epID =>
      let r := w.dp.DeleteEndpointBandwidthLimit C epID w.ext
      { w with dp := r.2.1, ext := r.2.2 }

/-- The world after a sequence of method calls, first call first. -/
def runCalls {E : Type} (C : Collaborators E) (cs : List Call) (w : World E) : World E :=
  cs.foldl (fun w c => c.run C w) w

/-! ## `pkg/cilium-cli/connectivity/builder/to_fqdns.go` -/

namespace check

/-- The struct `check.HTTP`, with the two fields that `to_fqdns.go` sets in its
composite literals. -/
structure HTTP where
  Method : string
  URL : string
deriving DecidableEq, Repr

/-- The struct `check.Result`: its field `HTTP`, and the rest of its fields
(declared in package `check`) as one value of a type `R`. -/
structure Result (R : Type) where
  rest : R
  HTTP : HTTP
deriving DecidableEq, Repr

/-- The package-level variables of package `check` that `to_fqdns.go` reads. -/
structure Vars (R : Type) where
  ResultNone : Result R
  ResultDNSOK : Result R
  ResultDropCurlTimeout : Result R
  ResultDNSOKDropCurlTimeout : Result R
  ResultDNSOKDropCurlHTTPError : Result R

/-- The interface `check.TestPeer`, through the three methods the expectation
function calls; `F` is the type `features.IPFamily`, `Port()` is a `uint32`. -/
structure TestPeer (F : Type) where
  Address : F → string
  Port : Nat
  Path : string

/-- A `*check.Action`, through its method `Destination()`. -/
structure Action (F : Type) where
  Destination : TestPeer F

/-- The struct `check.Parameters`, with the field the expectation function reads. -/
structure Parameters where
  ExternalTarget : string
deriving DecidableEq, Repr

/-- A `*check.ConnectivityTest`, through its method `Params()`. -/
structure ConnectivityTest where
  Params : Parameters
deriving DecidableEq, Repr

end check

/-- What `to_fqdns.go` uses of the package `features`: the constant
`features.IPFamilyAny` and the function `features.GetIPFamily`, over the type
`F` of `features.IPFamily`. -/
structure Features (F : Type) where
  IPFamilyAny : F
  GetIPFamily : string → F

/-- The Go call `fmt.Sprintf("http://%s/", s)`. -/
def sprintfHTTP (s : string) : string := "http://" ++ s ++ "/"

/-- The function literal passed to `WithExpectations` in `toFqdns.build`; its
results `egress` and `ingress` are named, and a `return` with operands sets both. -/
def toFqdns.expectations {F R : Type} (features : Features F) (vars : check.Vars R)
    (ct : check.ConnectivityTest) (a : check.Action F) :
    check.Result R × check.Result R :=
  if a.Destination.Address features.IPFamilyAny = "cilium.io" then
    if a.Destination.Path = "/" ∨ a.Destination.Path = "" then
      let egress := vars.ResultDNSOK
      let egress := { egress with HTTP := { Method := "GET", URL := "https://cilium.io" } }
      (vars.ResultDropCurlTimeout, vars.ResultNone)
    else
      (vars.ResultDNSOKDropCurlHTTPError, vars.ResultNone)
  else
    let extTarget := ct.Params.ExternalTarget
    if a.Destination.Port = 80 ∧
        a.Destination.Address (features.GetIPFamily extTarget) = extTarget then
      if a.Destination.Path = "/" ∨ a.Destination.Path = "" then
        let egress := vars.ResultDNSOK
        let egress := { egress with HTTP := { Method := "GET", URL := sprintfHTTP extTarget } }
        (egress, vars.ResultNone)
      else
        (vars.ResultDNSOKDropCurlHTTPError, vars.ResultNone)
    else
      (vars.ResultDNSOKDropCurlTimeout, vars.ResultNone)


/-! ## Concrete inputs -/

/-- An instance of the parameter `ipString`, for 4-byte addresses: dotted
decimal, as `net.IP.String` prints them. -/
def dottedQuad (ip : net.IP) : string :=
  match ip with
  | some [a, b, c, d] =>
      toString a.val ++ "." ++ toString b.val ++ "." ++ toString c.val ++ "." ++ toString d.val
  | _ => "?"

/-- An environment in which `restore.PortProto` is 32 bits wide. -/
def env32 : Env := { portProtoBits := 32, ipString := dottedQuad }

/-- The address bytes `10.0.0.10`. -/
def ip10 : net.IP := some [10, 0, 0, 10]

/-- A writer whose local address is the datagram address `10.0.0.10:53`. -/
def wUDP53 : ResponseWriter :=
  { LocalAddr := .ok (.udp (some ⟨ip10, 53, ""⟩)),
    RemoteAddr := .udp (some ⟨ip10, 40000, ""⟩) }

/-- A writer whose local address is the stream address `10.0.0.10:53`. -/
def wTCP53 : ResponseWriter :=
  { LocalAddr := .ok (.tcp (some ⟨ip10, 53, ""⟩)),
    RemoteAddr := .tcp (some ⟨ip10, 40001, ""⟩) }

/-- A writer with the same local address as `wUDP53` and another remote address. -/
def wUDP53b : ResponseWriter :=
  { LocalAddr := .ok (.udp (some ⟨ip10, 53, ""⟩)),
    RemoteAddr := .udp (some ⟨ip10, 50123, ""⟩) }

/-- A Unix-domain socket address. -/
def unixAddr : net.Addr := .other ⟨"*net.UnixAddr", .ok "/run/dns.sock", "/run/dns.sock"⟩

/-- A writer whose local address is a Unix-domain socket address. -/
def wUnix : ResponseWriter := { LocalAddr := .ok unixAddr, RemoteAddr := .nil }

/-- An address whose concrete type, of another package, has a `String()` method
that dereferences its receiver, held as a nil pointer: the method panics, and
`%+v` prints the nil pointer as `<nil>`. -/
def panicAddr : net.Addr :=
  .other ⟨"*main.panicAddr", .error .nilPointerDereference, "<nil>"⟩

/-- A writer whose local address is `panicAddr`. -/
def wPanicAddr : ResponseWriter := { LocalAddr := .ok panicAddr, RemoteAddr := .nil }

/-- A writer whose `LocalAddr()` is the nil interface. -/
def wNil : ResponseWriter := { LocalAddr := .ok .nil, RemoteAddr := .nil }

/-- A writer whose `LocalAddr()` holds a nil `*net.UDPAddr`. -/
def wNilUDP : ResponseWriter := { LocalAddr := .ok (.udp none), RemoteAddr := .nil }

/-- A writer whose `LocalAddr()` holds a nil `*net.TCPAddr`. -/
def wNilTCP : ResponseWriter := { LocalAddr := .ok (.tcp none), RemoteAddr := .nil }

/-- A writer whose method `LocalAddr()` panics. -/
def wPanicLocalAddr : ResponseWriter :=
  { LocalAddr := .error (.raised "dns: internal error: udp and tcp both nil"),
    RemoteAddr := .nil }

/-- An instance of `check.Vars` over `R := string`: each variable holds its own
name and an empty HTTP expectation. -/
def varsByName : check.Vars string :=
  { ResultNone := ⟨"ResultNone", ⟨"", ""⟩⟩
    ResultDNSOK := ⟨"ResultDNSOK", ⟨"", ""⟩⟩
    ResultDropCurlTimeout := ⟨"ResultDropCurlTimeout", ⟨"", ""⟩⟩
    ResultDNSOKDropCurlTimeout := ⟨"ResultDNSOKDropCurlTimeout", ⟨"", ""⟩⟩
    ResultDNSOKDropCurlHTTPError := ⟨"ResultDNSOKDropCurlHTTPError", ⟨"", ""⟩⟩ }

/-- An instance of `Features` over `F := Nat` with `IPFamilyAny = 0`, in which
every target is a host name (family `IPFamilyAny`). -/
def featuresAny : Features Nat := { IPFamilyAny := 0, GetIPFamily := fun _ => 0 }

/-- A test whose external target is `one.one.one.one`. -/
def ctOne : check.ConnectivityTest := { Params := { ExternalTarget := "one.one.one.one" } }

/-- An action towards `one.one.one.one`, port 80, path `/`. -/
def actOne : check.Action Nat :=
  { Destination := { Address := fun _ => "one.one.one.one", Port := 80, Path := "/" } }

/-- An action towards `cilium.io`, port 443, empty path. -/
def actCilium : check.Action Nat :=
  { Destination := { Address := fun _ => "cilium.io", Port := 443, Path := "" } }

/-- A datapath configuration. -/
def cfgHost : DatapathConfiguration := { HostDevice := "cilium_host", TunnelDevice := "" }


/-! ## Theorems: `lookupTargetDNSServer` -/

/-- A port in `0..65535` survives the conversion to `restore.PortProto` when
that type is at least 16 bits wide. -/
theorem PortProto_eq_of_port (env : Env) (hbits : 16 ≤ env.portProtoBits) (v : Int)
    (h0 : 0 ≤ v) (h1 : v ≤ 65535) : ((PortProto env v : Nat) : Int) = v := by
  have hpow : (2 : Int) ^ 16 ≤ 2 ^ env.portProtoBits :=
    pow_le_pow_right₀ (by norm_num) hbits
  have hlt : v < 2 ^ env.portProtoBits := by
    have : (2 : Int) ^ 16 = 65536 := by norm_num
    omega
  unfold PortProto
  rw [Int.emod_eq_of_lt h0 hlt]
  exact Int.toNat_of_nonneg h0

/-- The outcome of `lookupTargetDNSServer` on a non-nil `*net.UDPAddr`. -/
theorem lookupTargetDNSServer_udp (env : Env) (w : ResponseWriter) (a : net.UDPAddr)
    (h : w.LocalAddr = .ok (.udp (some a))) :
    lookupTargetDNSServer env w =
      .ok ⟨a.IP, PortProto env a.Port, net.UDPAddr.String env.ipString (some a), none⟩ := by
  unfold lookupTargetDNSServer
  rw [h]
  rfl

/-- The outcome of `lookupTargetDNSServer` on a non-nil `*net.TCPAddr`. -/
theorem lookupTargetDNSServer_tcp (env : Env) (w : ResponseWriter) (a : net.TCPAddr)
    (h : w.LocalAddr = .ok (.tcp (some a))) :
    lookupTargetDNSServer env w =
      .ok ⟨a.IP, PortProto env a.Port, net.TCPAddr.String env.ipString (some a), none⟩ := by
  unfold lookupTargetDNSServer
  rw [h]
  rfl

/-- The outcome of `lookupTargetDNSServer` on the nil interface and on nil
pointers of the two standard types. -/
theorem lookupTargetDNSServer_nil (env : Env) (w : ResponseWriter) :
    (w.LocalAddr = .ok .nil →
      lookupTargetDNSServer env w = .error .nilInterfaceMethodCall) ∧
    (w.LocalAddr = .ok (.udp none) →
      lookupTargetDNSServer env w = .error .nilPointerDereference) ∧
    (w.LocalAddr = .ok (.tcp none) →
      lookupTargetDNSServer env w = .error .nilPointerDereference) := by
  refine ⟨fun h => ?_, fun h => ?_, fun h => ?_⟩ <;>
  · unfold lookupTargetDNSServer
    rw [h]
    rfl

/-- The outcome of `lookupTargetDNSServer` when `w.LocalAddr()` panics. -/
theorem lookupTargetDNSServer_localAddr_panic (env : Env) (w : ResponseWriter) (e : GoPanic)
    (h : w.LocalAddr = .error e) : lookupTargetDNSServer env w = .error e := by
  unfold lookupTargetDNSServer
  rw [h]
  rfl

/-- The outcome of `lookupTargetDNSServer` on a non-nil address of another type
whose `String()` method returns `str`. -/
theorem lookupTargetDNSServer_other (env : Env) (w : ResponseWriter) (o : net.OtherAddr)
    (str : string) (h : w.LocalAddr = .ok (.other o)) (hstr : o.str = .ok str) :
    lookupTargetDNSServer env w =
      .ok ⟨none, 0, str, some (cannotExtract env (.other o))⟩ := by
  unfold lookupTargetDNSServer
  rw [h]
  show (do
    let s ← net.Addr.String env.ipString (.other o)
    pure ⟨none, 0, s, some (cannotExtract env (.other o))⟩ : Except GoPanic Target) = _
  have hs : net.Addr.String env.ipString (.other o) = o.str := rfl
  rw [hs, hstr]
  rfl

/-- The outcome of `lookupTargetDNSServer` on a non-nil address of another type
whose `String()` method panics: the panic goes through. -/
theorem lookupTargetDNSServer_other_panic (env : Env) (w : ResponseWriter)
    (o : net.OtherAddr) (e : GoPanic) (h : w.LocalAddr = .ok (.other o))
    (hstr : o.str = .error e) :
    lookupTargetDNSServer env w = .error e := by
  unfold lookupTargetDNSServer
  rw [h]
  show (do
    let s ← net.Addr.String env.ipString (.other o)
    pure ⟨none, 0, s, some (cannotExtract env (.other o))⟩ : Except GoPanic Target) = _
  have hs : net.Addr.String env.ipString (.other o) = o.str := rfl
  rw [hs, hstr]
  rfl

/-- C1: for a writer whose local address is a non-nil `*net.UDPAddr` or
`*net.TCPAddr` with IP `ip`, port `port` in `0..65535` and zone `zone`,
`lookupTargetDNSServer` returns normally, with `serverIP = ip`, a `serverPort`
numerically equal to `port`, `addrStr` equal to the result of the address's
`String()` method, and a nil error.  (`restore.PortProto` is taken to be at
least 16 bits wide.) -/
theorem lookupTargetDNSServer_returns_ip_port_string (env : Env) (w : ResponseWriter)
    (ip : net.IP) (port : Int) (zone : string)
    (hbits : 16 ≤ env.portProtoBits)
    (haddr : w.LocalAddr = .ok (.udp (some ⟨ip, port, zone⟩)) ∨
      w.LocalAddr = .ok (.tcp (some ⟨ip, port, zone⟩)))
    (h0 : 0 ≤ port) (h1 : port ≤ 65535) :
    ∃ t : Target, lookupTargetDNSServer env w = .ok t ∧
      t.serverIP = ip ∧ (t.serverPort : Int) = port ∧
      w.localAddrString env = .ok t.addrStr ∧
      t.err = none := by
  rcases haddr with h | h
  · refine ⟨_, lookupTargetDNSServer_udp env w _ h, rfl, ?_, ?_, rfl⟩
    · exact PortProto_eq_of_port env hbits port h0 h1
    · unfold ResponseWriter.localAddrString
      rw [h]; rfl
  · refine ⟨_, lookupTargetDNSServer_tcp env w _ h, rfl, ?_, ?_, rfl⟩
    · exact PortProto_eq_of_port env hbits port h0 h1
    · unfold ResponseWriter.localAddrString
      rw [h]; rfl

/-- C1 at the datagram address and at the stream address `10.0.0.10:53`. -/
theorem lookupTargetDNSServer_returns_ip_port_string_witness :
    (∃ t : Target, lookupTargetDNSServer env32 wUDP53 = .ok t ∧
      t.serverIP = ip10 ∧ (t.serverPort : Int) = 53 ∧
      wUDP53.localAddrString env32 = .ok t.addrStr ∧
      t.err = none) ∧
    (∃ t : Target, lookupTargetDNSServer env32 wTCP53 = .ok t ∧
      t.serverIP = ip10 ∧ (t.serverPort : Int) = 53 ∧
      wTCP53.localAddrString env32 = .ok t.addrStr ∧
      t.err = none) :=
  ⟨lookupTargetDNSServer_returns_ip_port_string env32 wUDP53 ip10 53 "" (by decide)
      (Or.inl rfl) (by decide) (by decide),
   lookupTargetDNSServer_returns_ip_port_string env32 wTCP53 ip10 53 "" (by decide)
      (Or.inr rfl) (by decide) (by decide)⟩

/-- C2 as stated fails when `LocalAddr()` is the nil interface, and when it is
an address of another type whose `String()` method panics: such an address is
neither a `*net.UDPAddr` nor a `*net.TCPAddr`, and no error is returned (the
call panics). -/
theorem lookupTargetDNSServer_error_iff_fails_at_nil :
    (wNil.LocalAddr = .ok .nil ∧
      ¬ ((∃ t : Target, lookupTargetDNSServer env32 wNil = .ok t ∧ t.err ≠ none) ↔
        (net.Addr.nil.isUDPAddr = false ∧ net.Addr.nil.isTCPAddr = false))) ∧
    (wPanicAddr.LocalAddr = .ok panicAddr ∧
      ¬ ((∃ t : Target, lookupTargetDNSServer env32 wPanicAddr = .ok t ∧ t.err ≠ none) ↔
        (panicAddr.isUDPAddr = false ∧ panicAddr.isTCPAddr = false))) := by
  refine ⟨⟨rfl, ?_⟩, ⟨rfl, ?_⟩⟩
  · intro hiff
    obtain ⟨t, ht, _⟩ := hiff.mpr ⟨rfl, rfl⟩
    have hpanic : lookupTargetDNSServer env32 wNil = .error .nilInterfaceMethodCall := rfl
    rw [hpanic] at ht
    cases ht
  · intro hiff
    obtain ⟨t, ht, _⟩ := hiff.mpr ⟨rfl, rfl⟩
    have hpanic : lookupTargetDNSServer env32 wPanicAddr = .error .nilPointerDereference :=
      rfl
    rw [hpanic] at ht
    cases ht

/-- C2, amended: for a writer whose `LocalAddr()` returns an address `a` on
which the call `a.String()` returns a string `str` (so `a` is not the nil
interface and its `String()` method returns), `lookupTargetDNSServer`
returns a non-nil error if and only if `a` is neither a `*net.UDPAddr` nor a
`*net.TCPAddr`; in that case it returns a nil `serverIP`, `serverPort` 0,
`addrStr = str`, and the error message
`Cannot extract address information for type T: ...` in which `T` is what
`%T` prints for `a`. -/
theorem lookupTargetDNSServer_error_iff_other_type (env : Env) (w : ResponseWriter)
    (a : net.Addr) (str : string)
    (hlocal : w.LocalAddr = .ok a)
    (hstr : a.String env.ipString = .ok str) :
    ((∃ t : Target, lookupTargetDNSServer env w = .ok t ∧ t.err ≠ none) ↔
        (a.isUDPAddr = false ∧ a.isTCPAddr = false)) ∧
    ((a.isUDPAddr = false ∧ a.isTCPAddr = false) →
      ∃ t : Target, lookupTargetDNSServer env w = .ok t ∧
        t.serverIP = none ∧ t.serverPort = 0 ∧ t.addrStr = str ∧
        ∃ rest : string, t.err = some
          ("Cannot extract address information for type " ++ a.fmtT ++ rest)) := by
  cases a with
  | nil => cases hstr
  | udp p =>
      refine ⟨⟨?_, fun h => by simp [net.Addr.isUDPAddr] at h⟩,
        fun h => by simp [net.Addr.isUDPAddr] at h⟩
      rintro ⟨t, ht, hne⟩
      cases p with
      | none =>
          rw [(lookupTargetDNSServer_nil env w).2.1 hlocal] at ht
          cases ht
      | some a =>
          rw [lookupTargetDNSServer_udp env w a hlocal] at ht
          injection ht with ht
          subst ht
          exact absurd rfl hne
  | tcp p =>
      refine ⟨⟨?_, fun h => by simp [net.Addr.isTCPAddr] at h⟩,
        fun h => by simp [net.Addr.isTCPAddr] at h⟩
      rintro ⟨t, ht, hne⟩
      cases p with
      | none =>
          rw [(lookupTargetDNSServer_nil env w).2.2 hlocal] at ht
          cases ht
      | some a =>
          rw [lookupTargetDNSServer_tcp env w a hlocal] at ht
          injection ht with ht
          subst ht
          exact absurd rfl hne
  | other o =>
      have hres := lookupTargetDNSServer_other env w o str hlocal hstr
      refine ⟨⟨fun _ => ⟨rfl, rfl⟩, fun _ => ⟨_, hres, by simp⟩⟩,
        fun _ => ⟨_, hres, rfl, rfl, rfl, ?_⟩⟩
      refine ⟨": " ++ o.plusV, ?_⟩
      simp [cannotExtract, net.Addr.fmtT, net.Addr.fmtPlusV, String.append_assoc]

/-- C2, amended, at a writer whose local address is a `*net.UnixAddr`. -/
theorem lookupTargetDNSServer_error_iff_other_type_witness :
    ((∃ t : Target, lookupTargetDNSServer env32 wUnix = .ok t ∧ t.err ≠ none) ↔
        (unixAddr.isUDPAddr = false ∧ unixAddr.isTCPAddr = false)) ∧
    ((unixAddr.isUDPAddr = false ∧ unixAddr.isTCPAddr = false) →
      ∃ t : Target, lookupTargetDNSServer env32 wUnix = .ok t ∧
        t.serverIP = none ∧ t.serverPort = 0 ∧ t.addrStr = "/run/dns.sock" ∧
        ∃ rest : string, t.err = some
          ("Cannot extract address information for type " ++ unixAddr.fmtT ++ rest)) :=
  lookupTargetDNSServer_error_iff_other_type env32 wUnix unixAddr "/run/dns.sock" rfl rfl

/-- C3 as stated fails at `10.0.0.10:53`: the result for the datagram address
and the result for the stream address are the same value, so they are not
distinguishable. -/
theorem lookupTargetDNSServer_udp_tcp_not_distinguishable :
    ¬ (lookupTargetDNSServer env32 wUDP53 ≠ lookupTargetDNSServer env32 wTCP53) := by
  intro h
  exact h rfl

/-- C3, amended: for every IP, port and zone, the result for a `*net.UDPAddr`
local address and the result for a `*net.TCPAddr` local address with the same
IP, port and zone are equal; the result consists of the IP, the port, the
address string and a nil error, and carries no transport protocol. -/
theorem lookupTargetDNSServer_same_for_udp_and_tcp (env : Env) (ip : net.IP) (port : Int)
    (zone : string) (r₁ r₂ : net.Addr) :
    lookupTargetDNSServer env ⟨.ok (.udp (some ⟨ip, port, zone⟩)), r₁⟩ =
        lookupTargetDNSServer env ⟨.ok (.tcp (some ⟨ip, port, zone⟩)), r₂⟩ ∧
      lookupTargetDNSServer env ⟨.ok (.udp (some ⟨ip, port, zone⟩)), r₁⟩ =
        .ok ⟨ip, PortProto env port, net.hostPortZoneString env.ipString ip port zone, none⟩ :=
  ⟨rfl, rfl⟩

/-- C4 as stated fails: on the nil interface, on a nil `*net.UDPAddr` and on a
nil `*net.TCPAddr` the call panics and returns nothing; so it does on an
address of another type whose `String()` method panics, and on a writer whose
`LocalAddr()` method panics. -/
theorem lookupTargetDNSServer_panics_on_nil :
    lookupTargetDNSServer env32 wNil = .error .nilInterfaceMethodCall ∧
    lookupTargetDNSServer env32 wNilUDP = .error .nilPointerDereference ∧
    lookupTargetDNSServer env32 wNilTCP = .error .nilPointerDereference ∧
    ¬ (∃ t : Target, lookupTargetDNSServer env32 wNilUDP = .ok t) ∧
    lookupTargetDNSServer env32 wPanicAddr = .error .nilPointerDereference ∧
    (∃ e : GoPanic, lookupTargetDNSServer env32 wPanicLocalAddr = .error e) := by
  refine ⟨rfl, rfl, rfl, ?_, rfl, ⟨_, rfl⟩⟩
  rintro ⟨t, ht⟩
  cases ht

/-- C4, amended: `lookupTargetDNSServer` returns normally (with a result or an
error) exactly for the writers whose `LocalAddr()` returns an address that is
neither the nil interface, nor a nil `*net.UDPAddr`, nor a nil `*net.TCPAddr`,
nor an address of another type whose `String()` method fails to return a
string; for every other writer the call does not return normally (it panics,
or the method it called does not return). -/
theorem lookupTargetDNSServer_returns_iff_not_nil (env : Env) (w : ResponseWriter) :
    ((∃ t : Target, lookupTargetDNSServer env w = .ok t) ↔
      (∃ a : net.Addr, w.LocalAddr = .ok a ∧
        a ≠ .nil ∧ a ≠ .udp none ∧ a ≠ .tcp none ∧
        ∀ o : net.OtherAddr, a = .other o → ∃ str : string, o.str = .ok str)) ∧
    ((∃ e : GoPanic, lookupTargetDNSServer env w = .error e) ↔
      ((∃ e : GoPanic, w.LocalAddr = .error e) ∨
        w.LocalAddr = .ok .nil ∨ w.LocalAddr = .ok (.udp none) ∨
        w.LocalAddr = .ok (.tcp none) ∨
        ∃ (o : net.OtherAddr) (e : GoPanic),
          w.LocalAddr = .ok (.other o) ∧ o.str = .error e)) := by
  cases hl : w.LocalAddr with
  | error e =>
      have hres := lookupTargetDNSServer_localAddr_panic env w e hl
      refine ⟨⟨?_, ?_⟩, fun _ => Or.inl ⟨e, rfl⟩, fun _ => ⟨e, hres⟩⟩
      · rintro ⟨t, ht⟩
        rw [hres] at ht
        cases ht
      · rintro ⟨a, ha, _⟩
        cases ha
  | ok l =>
      cases l with
      | nil =>
          have hres := (lookupTargetDNSServer_nil env w).1 hl
          refine ⟨⟨?_, ?_⟩, fun _ => Or.inr (Or.inl rfl), fun _ => ⟨_, hres⟩⟩
          · rintro ⟨t, ht⟩
            rw [hres] at ht
            cases ht
          · rintro ⟨a, ha, hnil, _⟩
            injection ha with ha
            exact absurd ha.symm hnil
      | udp p =>
          cases p with
          | none =>
              have hres := (lookupTargetDNSServer_nil env w).2.1 hl
              refine ⟨⟨?_, ?_⟩, fun _ => Or.inr (Or.inr (Or.inl rfl)), fun _ => ⟨_, hres⟩⟩
              · rintro ⟨t, ht⟩
                rw [hres] at ht
                cases ht
              · rintro ⟨a, ha, _, hnil, _⟩
                injection ha with ha
                exact absurd ha.symm hnil
          | some a =>
              have hres := lookupTargetDNSServer_udp env w a hl
              refine ⟨⟨fun _ => ⟨_, rfl, by simp, by simp, by simp, by simp⟩,
                fun _ => ⟨_, hres⟩⟩, ?_, ?_⟩
              · rintro ⟨e, he⟩
                rw [hres] at he
                cases he
              · intro h
                simp at h
      | tcp p =>
          cases p with
          | none =>
              have hres := (lookupTargetDNSServer_nil env w).2.2 hl
              refine ⟨⟨?_, ?_⟩, fun _ => Or.inr (Or.inr (Or.inr (Or.inl rfl))),
                fun _ => ⟨_, hres⟩⟩
              · rintro ⟨t, ht⟩
                rw [hres] at ht
                cases ht
              · rintro ⟨a, ha, _, _, hnil, _⟩
                injection ha with ha
                exact absurd ha.symm hnil
          | some a =>
              have hres := lookupTargetDNSServer_tcp env w a hl
              refine ⟨⟨fun _ => ⟨_, rfl, by simp, by simp, by simp, by simp⟩,
                fun _ => ⟨_, hres⟩⟩, ?_, ?_⟩
              · rintro ⟨e, he⟩
                rw [hres] at he
                cases he
              · intro h
                simp at h
      | other o =>
          cases hs : o.str with
          | ok str =>
              have hres := lookupTargetDNSServer_other env w o str hl hs
              refine ⟨⟨fun _ => ⟨_, rfl, by simp, by simp, by simp, ?_⟩,
                fun _ => ⟨_, hres⟩⟩, ?_, ?_⟩
              · intro o' ho'
                injection ho' with ho'
                subst ho'
                exact ⟨str, hs⟩
              · rintro ⟨e, he⟩
                rw [hres] at he
                cases he
              · rintro (⟨e, h⟩ | h | h | h | ⟨o', e, ho', he⟩)
                · cases h
                · cases h
                · cases h
                · cases h
                · injection ho' with ho'
                  injection ho' with ho'
                  subst ho'
                  rw [hs] at he
                  cases he
          | error e =>
              have hres := lookupTargetDNSServer_other_panic env w o e hl hs
              refine ⟨⟨?_, ?_⟩, fun _ => Or.inr (Or.inr (Or.inr (Or.inr ⟨o, e, rfl, hs⟩))),
                fun _ => ⟨e, hres⟩⟩
              · rintro ⟨t, ht⟩
                rw [hres] at ht
                cases ht
              · rintro ⟨a, ha, _, _, _, h⟩
                injection ha with ha
                obtain ⟨str, hstr⟩ := h o ha.symm
                rw [hs] at hstr
                cases hstr

/-- C5: two writers with equal `LocalAddr()` values get the same outcome from
`lookupTargetDNSServer` (the same four returned values), whatever else
differs between the writers. -/
theorem lookupTargetDNSServer_depends_on_LocalAddr_only (env : Env) (w₁ w₂ : ResponseWriter)
    (h : w₁.LocalAddr = w₂.LocalAddr) :
    lookupTargetDNSServer env w₁ = lookupTargetDNSServer env w₂ := by
  unfold lookupTargetDNSServer
  rw [h]

/-- C5 at two writers with local address `10.0.0.10:53` and different remote
addresses. -/
theorem lookupTargetDNSServer_depends_on_LocalAddr_only_witness :
    wUDP53.RemoteAddr ≠ wUDP53b.RemoteAddr ∧
      lookupTargetDNSServer env32 wUDP53 = lookupTargetDNSServer env32 wUDP53b :=
  ⟨by decide, lookupTargetDNSServer_depends_on_LocalAddr_only env32 wUDP53 wUDP53b rfl⟩


/-! ## Theorems: `linuxDatapath` -/

/-- A method call leaves the datapath object as it was. -/
theorem Call.run_dp {E : Type} (C : Collaborators E) (c : Call) (w : World E) :
    (c.run C w).dp = w.dp := by
  cases c <;> rfl

/-- A sequence of method calls leaves the datapath object as it was. -/
theorem runCalls_dp {E : Type} (C : Collaborators E) (cs : List Call) (w : World E) :
    (runCalls C cs w).dp = w.dp := by
  induction cs generalizing w with
  | nil => rfl
  | cons c cs ih =>
      show (runCalls C cs (c.run C w)).dp = w.dp
      rw [ih, Call.run_dp]

/-- C6: the object built by `NewDatapath(p, cfg)` holds `config = cfg`; each of
the ten methods of `linuxDatapath` returns the object with every field as it
was (`DeleteEndpointBandwidthLimit` acts on the bandwidth manager only), and so
does the `OnStart` hook; hence after any sequence of method calls the object
is the one `NewDatapath` built and its `config` is still `cfg`. -/
theorem linuxDatapath_config_never_changes {E : Type} (C : Collaborators E)
    (p : DatapathParams) (cfg : DatapathConfiguration) (ext : E) :
    (NewDatapath C p cfg ext).dp.config = cfg ∧
    (∀ l : linuxDatapath,
      l.Name.2 = l ∧ l.Node.2 = l ∧ l.NodeIDs.2 = l ∧ l.NodeNeighbors.2 = l ∧
      l.LocalNodeAddressing.2 = l ∧ l.Loader.2 = l ∧ l.WireguardAgent.2 = l ∧
      l.LBMap.2 = l ∧ l.BandwidthManager.2 = l ∧
      ∀ (epID : Nat) (e : E), (l.DeleteEndpointBandwidthLimit C epID e).2.1 = l) ∧
    (∀ (h : Hook) (w : World E), (h.OnStart C w).2.dp = w.dp) ∧
    (∀ cs : List Call,
      (runCalls C cs (NewDatapath C p cfg ext)).dp = (NewDatapath C p cfg ext).dp ∧
      (runCalls C cs (NewDatapath C p cfg ext)).dp.config = cfg) := by
  have hnew : (NewDatapath C p cfg ext).dp.config = cfg := rfl
  refine ⟨hnew, ?_, ?_, ?_⟩
  · intro l
    exact ⟨rfl, rfl, rfl, rfl, rfl, rfl, rfl, rfl, rfl, fun _ _ => rfl⟩
  · intro h w
    cases h
    rfl
  · intro cs
    have hdp := runCalls_dp C cs (NewDatapath C p cfg ext)
    exact ⟨hdp, by rw [hdp]; exact hnew⟩

/-! ## Theorems: the expectation function of `to-fqdns` -/

/-- C7: for an action whose destination address is not `cilium.io`, whose port
is 80, whose address in the external target's IP family equals
`ExternalTarget` and whose path is `/` or empty, the egress result is
`ResultDNSOK` with `HTTP` set to method `GET` and URL
`http://<ExternalTarget>/`, and the ingress result is `ResultNone`. -/
theorem toFqdns_expectations_port80_external_target {F R : Type} (features : Features F)
    (vars : check.Vars R) (ct : check.ConnectivityTest) (a : check.Action F)
    (haddr : a.Destination.Address features.IPFamilyAny ≠ "cilium.io")
    (hport : a.Destination.Port = 80)
    (hext : a.Destination.Address (features.GetIPFamily ct.Params.ExternalTarget) =
      ct.Params.ExternalTarget)
    (hpath : a.Destination.Path = "/" ∨ a.Destination.Path = "") :
    toFqdns.expectations features vars ct a =
      ({ vars.ResultDNSOK with
          HTTP := { Method := "GET", URL := "http://" ++ ct.Params.ExternalTarget ++ "/" } },
        vars.ResultNone) := by
  unfold toFqdns.expectations
  rw [if_neg haddr, if_pos ⟨hport, hext⟩, if_pos hpath]
  rfl

/-- C7 at an action towards `one.one.one.one`, port 80, path `/`. -/
theorem toFqdns_expectations_port80_external_target_witness :
    toFqdns.expectations featuresAny varsByName ctOne actOne =
      ({ varsByName.ResultDNSOK with
          HTTP := { Method := "GET", URL := "http://" ++ ctOne.Params.ExternalTarget ++ "/" } },
        varsByName.ResultNone) :=
  toFqdns_expectations_port80_external_target featuresAny varsByName ctOne actOne
    (by decide) rfl rfl (Or.inl rfl)

/-- C8: for an action whose destination address is `cilium.io` and whose path
is `/` or empty, the returned pair is `(ResultDropCurlTimeout, ResultNone)`;
the `HTTP` field of the returned egress result is the one of the package
variable `ResultDropCurlTimeout`, not the one assigned to the local `egress`:
when that variable has an empty method and URL, so has the returned egress
result. -/
theorem toFqdns_expectations_cilium_io_dropped {F R : Type} (features : Features F)
    (vars : check.Vars R) (ct : check.ConnectivityTest) (a : check.Action F)
    (haddr : a.Destination.Address features.IPFamilyAny = "cilium.io")
    (hpath : a.Destination.Path = "/" ∨ a.Destination.Path = "") :
    toFqdns.expectations features vars ct a =
        (vars.ResultDropCurlTimeout, vars.ResultNone) ∧
      (toFqdns.expectations features vars ct a).1.HTTP = vars.ResultDropCurlTimeout.HTTP ∧
      (vars.ResultDropCurlTimeout.HTTP = { Method := "", URL := "" } →
        (toFqdns.expectations features vars ct a).1.HTTP.Method ≠ "GET" ∧
        (toFqdns.expectations features vars ct a).1.HTTP.URL ≠ "https://cilium.io") := by
  have hres : toFqdns.expectations features vars ct a =
      (vars.ResultDropCurlTimeout, vars.ResultNone) := by
    unfold toFqdns.expectations
    rw [if_pos haddr, if_pos hpath]
  refine ⟨hres, by rw [hres], ?_⟩
  intro hzero
  rw [hres]
  simp only [hzero]
  exact ⟨by decide, by decide⟩

/-- C8 at an action towards `cilium.io` with an empty path. -/
theorem toFqdns_expectations_cilium_io_dropped_witness :
    toFqdns.expectations featuresAny varsByName ctOne actCilium =
        (varsByName.ResultDropCurlTimeout, varsByName.ResultNone) ∧
      (toFqdns.expectations featuresAny varsByName ctOne actCilium).1.HTTP.Method ≠ "GET" ∧
      (toFqdns.expectations featuresAny varsByName ctOne actCilium).1.HTTP.URL ≠
        "https://cilium.io" :=
  have h := toFqdns_expectations_cilium_io_dropped featuresAny varsByName ctOne actCilium
    rfl (Or.inr rfl)
  ⟨h.1, h.2.2 rfl⟩


end Cilium
